import Mathlib

/-!
Shallow embedding of `src/server.py`: the EBX Tool Gateway, an MCP server
exposing four tool operations (`search_schema`, `execute_sql`,
`find_similar_records`, `get_table_definition`).  Each operation issues one
outbound HTTP request (modelled by a `Request` value) and turns the backend's
HTTP response (modelled by a `Response` value) into either a returned string
or a raised `HTTPStatusError` (modelled by `Except`).
-/

/-- A JSON value as produced by Python's `json.loads` (via httpx
`response.json()`).  Numbers are restricted to integers: no logic in
`server.py` inspects numeric body values.  An `obj` keeps its fields as an
association list; `json.loads` keeps the last value of a duplicated key,
which `dictGet` below accounts for. -/
inductive Json where
  | null : Json
  | bool (b : Bool) : Json
  | num (n : Int) : Json
  | str (s : String) : Json
  | arr (elems : List Json) : Json
  | obj (fields : List (String × Json)) : Json

mutual

/-- Python `repr` of a value decoded by `json.loads`, for values whose
strings need no escaping (the only case `server.py` can hit is formatting a
decoded value in an f-string). -/
def pyRepr : Json → String
  | Json.null => "None"
  | Json.bool true => "True"
  | Json.bool false => "False"
  | Json.num n => toString n
  | Json.str s => "'" ++ s ++ "'"
  | Json.arr xs => "[" ++ String.intercalate ", " (pyReprElems xs) ++ "]"
  | Json.obj fs => "\x7b" ++ String.intercalate ", " (pyReprFields fs) ++ "\x7d"

/-- `repr` of each element of a decoded list. -/
def pyReprElems : List Json → List String
  | [] => []
  | x :: xs => pyRepr x :: pyReprElems xs

/-- `repr` of each key/value entry of a decoded dict. -/
def pyReprFields : List (String × Json) → List String
  | [] => []
  | (k, v) :: fs => ("'" ++ k ++ "': " ++ pyRepr v) :: pyReprFields fs

end

/-- Python `str()` of a value decoded by `json.loads`, as interpolated in an
f-string: a string interpolates bare, everything else via `repr`. -/
def pyStr : Json → String
  | Json.str s => s
  | j => pyRepr j

/-- Python `d.get(key)` on a dict decoded by `json.loads`: the last value
stored under a duplicated key wins, hence the lookup over the reversed
association list. -/
def dictGet (fields : List (String × Json)) (key : String) : Option Json :=
  List.lookup key fields.reverse

/-- A backend HTTP response as `server.py` observes it through httpx:
the status code, the body decoded as text (`response.text`), and the
outcome of `response.json()` — `none` models the body failing to parse as
JSON, in which case the call raises. -/
structure Response where
  status : Nat
  text : String
  json : Option Json

/-- httpx `Response.is_success`: status in 2xx. -/
def Response.is_success (r : Response) : Bool :=
  decide (200 ≤ r.status) && decide (r.status ≤ 299)

/-- httpx `Response.is_error`: status in 4xx or 5xx. -/
def Response.is_error (r : Response) : Bool :=
  decide (400 ≤ r.status) && decide (r.status ≤ 599)

/-- The httpx `HTTPStatusError` raised by `response.raise_for_status()`,
retaining the offending status code. -/
structure HTTPStatusError where
  status : Nat
deriving DecidableEq

/-- Base URL for the EBX Agent API (`src/server.py` line 12). -/
def BASE_URL : String := "http://localhost:8080/ebx-ps-fasttrack/rest"

/-- Basic authentication credentials (`src/server.py` line 15). -/
def AUTH : String × String := ("admin", "admin")

/-- HTTP method of an outbound request. -/
inductive Method where
  | get : Method
  | post : Method
deriving DecidableEq

/-- An outbound httpx request as issued by one of the four operations:
method, URL, query parameters (GET), JSON body (POST `json=`), and the
basic-auth credential pair. -/
structure Request where
  method : Method
  url : String
  params : List (String × String)
  body : Option Json
  auth : String × String

/-- The request issued by `search_schema` (`src/server.py` lines 49-54):
GET on `BASE_URL ++ "/agent/v1/search"` with the query as a parameter. -/
def search_schema_request (query : String) : Request :=
  { method := Method.get
    url := BASE_URL ++ "/agent/v1/search"
    params := [("query", query)]
    body := none
    auth := AUTH }

/-- `search_schema` response handling (`src/server.py` lines 55-56):
`response.raise_for_status()` then `return response.text`.  httpx
`raise_for_status` raises `HTTPStatusError` for every non-2xx status, so a
non-success response yields a raised error, never a returned string. -/
def search_schema (query : String) (r : Response) : Except HTTPStatusError String :=
  if r.is_success then Except.ok r.text else Except.error ⟨r.status⟩

/-- The error rewrite shared (textually duplicated) by `execute_sql`,
`find_similar_records` and `get_table_definition` (`src/server.py` lines
152-158, 211-215, 266-272): try `response.json()` and format
`label + error_data.get('details', 'Unknown error')`; any exception — the
body failing to parse, or `.get` on a decoded non-dict raising
`AttributeError` — is caught and falls back to the raw status code and body
text. -/
def rewriteError (label : String) (r : Response) : String :=
  match r.json with
  | some (Json.obj fields) =>
      label ++ pyStr ((dictGet fields "details").getD (Json.str "Unknown error"))
  | _ => "HTTP Error " ++ toString r.status ++ ": " ++ r.text

/-- The request issued by `execute_sql` (`src/server.py` lines 139-148):
POST on `BASE_URL ++ "/agent/v1/sql"` with the three values as JSON body. -/
def execute_sql_request (sql dataspace dataset : String) : Request :=
  { method := Method.post
    url := BASE_URL ++ "/agent/v1/sql"
    params := []
    body := some (Json.obj
      [("sql", Json.str sql), ("dataspace", Json.str dataspace),
       ("dataset", Json.str dataset)])
    auth := AUTH }

/-- `execute_sql` response handling (`src/server.py` lines 150-160): on
`is_error` the rewrite with label `"EBX SQL Error: "`, otherwise
`response.text`.  Always returns, never raises. -/
def execute_sql (sql dataspace dataset : String) (r : Response) :
    Except HTTPStatusError String :=
  if r.is_error then Except.ok (rewriteError "EBX SQL Error: " r)
  else Except.ok r.text

/-- The request issued by `find_similar_records` (`src/server.py` lines
197-208): POST on `BASE_URL ++ "/agent/v1/vector-similarity"` with the four
identifying strings and `k` as JSON body; `k` defaults to 5. -/
def find_similar_records_request (dataspace dataset table_path record_pk : String)
    (k : Int := 5) : Request :=
  { method := Method.post
    url := BASE_URL ++ "/agent/v1/vector-similarity"
    params := []
    body := some (Json.obj
      [("dataspace", Json.str dataspace), ("dataset", Json.str dataset),
       ("tablePath", Json.str table_path), ("recordPk", Json.str record_pk),
       ("k", Json.num k)])
    auth := AUTH }

/-- `find_similar_records` response handling (`src/server.py` lines
210-217): on `is_error` the rewrite with label
`"EBX Vector Similarity Error: "`, otherwise `response.text`. -/
def find_similar_records (dataspace dataset table_path record_pk : String)
    (k : Int := 5) (r : Response) : Except HTTPStatusError String :=
  if r.is_error then Except.ok (rewriteError "EBX Vector Similarity Error: " r)
  else Except.ok r.text

/-- The request issued by `get_table_definition` (`src/server.py` lines
253-262): GET on `BASE_URL ++ "/agent/v1/fields"` with the three values as
parameters. -/
def get_table_definition_request (dataspace dataset path : String) : Request :=
  { method := Method.get
    url := BASE_URL ++ "/agent/v1/fields"
    params := [("dataspace", dataspace), ("dataset", dataset), ("path", path)]
    body := none
    auth := AUTH }

/-- `get_table_definition` response handling (`src/server.py` lines
264-274): on `is_error` the rewrite with label `"EBX SQL Error: "` (the same
label as `execute_sql`), otherwise `response.text`. -/
def get_table_definition (dataspace dataset path : String) (r : Response) :
    Except HTTPStatusError String :=
  if r.is_error then Except.ok (rewriteError "EBX SQL Error: " r)
  else Except.ok r.text

/-- `sub` occurs as a contiguous substring of `s`. -/
def containsStr (s sub : String) : Prop :=
  ∃ a b, s = a ++ sub ++ b

theorem containsStr_chars {s sub : String} (h : containsStr s sub) :
    ∀ c, c ∈ sub.data → c ∈ s.data := by
  obtain ⟨a, b, rfl⟩ := h
  intro c hc
  simp only [String.data_append, List.mem_append]
  exact Or.inl (Or.inr hc)

theorem containsStr_of_eq_append (a sub b : String) :
    containsStr (a ++ sub ++ b) sub := ⟨a, b, rfl⟩

/-- One tool invocation together with the backend response it receives. -/
inductive ToolCall where
  | searchSchema (query : String) (r : Response) : ToolCall
  | executeSql (sql dataspace dataset : String) (r : Response) : ToolCall
  | findSimilarRecords (dataspace dataset table_path record_pk : String)
      (k : Int) (r : Response) : ToolCall
  | getTableDefinition (dataspace dataset path : String) (r : Response) : ToolCall

/-- The value a single tool invocation produces. -/
def ToolCall.run : ToolCall → Except HTTPStatusError String
  | ToolCall.searchSchema q r => search_schema q r
  | ToolCall.executeSql sql ds dt r => execute_sql sql ds dt r
  | ToolCall.findSimilarRecords ds dt tp pk k r => find_similar_records ds dt tp pk k r
  | ToolCall.getTableDefinition ds dt p r => get_table_definition ds dt p r

/-- The module-level state of `server.py`: it consists solely of the two
constants `BASE_URL` and `AUTH` (lines 12 and 15); no tool body assigns to
any module-level name. -/
structure GatewayState where
  base_url : String
  auth : String × String

/-- The gateway state at process start. -/
def initState : GatewayState := ⟨BASE_URL, AUTH⟩

/-- One step of the gateway: serve a call and carry the module state to the
next call.  No tool body writes any module-level name, so the state is
passed on unchanged. -/
def stepCall (s : GatewayState) (c : ToolCall) : GatewayState × Except HTTPStatusError String :=
  (s, c.run)

/-- Serve a sequence of calls from a given module state, collecting the
returned values in order. -/
def runTrace (s : GatewayState) : List ToolCall → List (Except HTTPStatusError String)
  | [] => []
  | c :: cs =>
      let (s', out) := stepCall s c
      out :: runTrace s' cs

theorem runTrace_eq_map (s : GatewayState) (cs : List ToolCall) :
    runTrace s cs = cs.map ToolCall.run := by
  induction cs with
  | nil => rfl
  | cons c cs ih => simp [runTrace, stepCall, ih]

/-- A concrete 2xx backend response carrying a JSON array body. -/
def respOk : Response :=
  ⟨200, "[\x7b\"name\":\"id\"\x7d]", some (Json.arr [Json.obj [("name", Json.str "id")]])⟩

/-- A concrete 404 backend response whose body even carries a `details`
field. -/
def resp404 : Response :=
  ⟨404, "\x7b\"details\": \"boom\"\x7d", some (Json.obj [("details", Json.str "boom")])⟩

/-- A concrete 303 redirect response whose body carries a `details` field
and also parses as JSON. -/
def resp303 : Response :=
  ⟨303, "\x7b\"details\": \"moved\"\x7d", some (Json.obj [("details", Json.str "moved")])⟩

/-- Claim C1: for every one of the four operations and every backend
response with a 2xx status and body `B`, the operation returns exactly `B`,
with no mutation or interpretation of the body. -/
theorem success_passthrough (q sql ds dt tp pk path : String) (k : Int)
    (r : Response) (h : 200 ≤ r.status ∧ r.status ≤ 299) :
    search_schema q r = Except.ok r.text ∧
    execute_sql sql ds dt r = Except.ok r.text ∧
    find_similar_records ds dt tp pk k r = Except.ok r.text ∧
    get_table_definition ds dt path r = Except.ok r.text := by
  have hs : r.is_success = true := by
    simp only [Response.is_success, Bool.and_eq_true, decide_eq_true_eq]
    omega
  have he : r.is_error = false := by
    simp only [Response.is_error, Bool.and_eq_false_iff, decide_eq_false_iff_not]
    omega
  refine ⟨?_, ?_, ?_, ?_⟩ <;>
    simp [search_schema, execute_sql, find_similar_records, get_table_definition, hs, he]

/-- Witness for C1 at a concrete 200 response. -/
theorem success_passthrough_witness :
    search_schema "Company" respOk = Except.ok "[\x7b\"name\":\"id\"\x7d]" ∧
    execute_sql "SELECT 1" "Reference" "MIMA" respOk
      = Except.ok "[\x7b\"name\":\"id\"\x7d]" ∧
    find_similar_records "Reference" "MIMA" "/root/Company" "1" 5 respOk
      = Except.ok "[\x7b\"name\":\"id\"\x7d]" ∧
    get_table_definition "Reference" "MIMA" "/root/Company" respOk
      = Except.ok "[\x7b\"name\":\"id\"\x7d]" :=
  success_passthrough "Company" "SELECT 1" "Reference" "MIMA" "/root/Company" "1"
    "/root/Company" 5 respOk (by decide)

/-- Claim C4: `search_schema` never applies the `details`-field rewrite: on
every non-2xx backend response it raises the status error (modelled by
`Except.error`), never returning a rewritten string, asymmetrically from the
other three operations. -/
theorem search_schema_raises_on_non_2xx (q : String) (r : Response)
    (h : ¬ (200 ≤ r.status ∧ r.status ≤ 299)) :
    search_schema q r = Except.error ⟨r.status⟩ := by
  have hs : r.is_success = false := by
    simp only [Response.is_success, Bool.and_eq_false_iff, decide_eq_false_iff_not]
    omega
  simp [search_schema, hs]

/-- Witness for C4 at a concrete 404 response that carries a `details`
field: the call still raises rather than returning a rewritten string. -/
theorem search_schema_raises_on_non_2xx_witness :
    search_schema "Company" resp404 = Except.error ⟨404⟩ :=
  search_schema_raises_on_non_2xx "Company" resp404 (by decide)

/-- Claim C10: for `execute_sql`, `find_similar_records` and
`get_table_definition`, a backend response whose status is neither a 2xx
success nor a 4xx/5xx error — in particular a 3xx redirect — is treated
like a success: its body is returned verbatim with no error rewrite and no
exception, because only `is_error` is inspected. -/
theorem non_error_status_passthrough (sql ds dt tp pk path : String) (k : Int)
    (r : Response) (hns : ¬ (200 ≤ r.status ∧ r.status ≤ 299))
    (hne : ¬ (400 ≤ r.status ∧ r.status ≤ 599)) :
    execute_sql sql ds dt r = Except.ok r.text ∧
    find_similar_records ds dt tp pk k r = Except.ok r.text ∧
    get_table_definition ds dt path r = Except.ok r.text := by
  have he : r.is_error = false := by
    simp only [Response.is_error, Bool.and_eq_false_iff, decide_eq_false_iff_not]
    omega
  refine ⟨?_, ?_, ?_⟩ <;>
    simp [execute_sql, find_similar_records, get_table_definition, he]

/-- Witness for C10 at a concrete 303 redirect whose body even carries a
`details` field: the body comes back verbatim, unrewritten. -/
theorem non_error_status_passthrough_witness :
    execute_sql "SELECT 1" "Reference" "MIMA" resp303
      = Except.ok "\x7b\"details\": \"moved\"\x7d" ∧
    find_similar_records "Reference" "MIMA" "/root/Company" "1" 5 resp303
      = Except.ok "\x7b\"details\": \"moved\"\x7d" ∧
    get_table_definition "Reference" "MIMA" "/root/Company" resp303
      = Except.ok "\x7b\"details\": \"moved\"\x7d" :=
  non_error_status_passthrough "SELECT 1" "Reference" "MIMA" "/root/Company" "1"
    "/root/Company" 5 resp303 (by decide) (by decide)

/-- The backend 400 response of the spec's `execute_sql` example. -/
def resp400UnknownColumn : Response :=
  ⟨400, "\x7b\"details\":\"unknown column\"\x7d",
    some (Json.obj [("details", Json.str "unknown column")])⟩

/-- Claim C6: `execute_sql`, given a backend 400 response with body
`{"details":"unknown column"}`, returns the string
`EBX SQL Error: unknown column` exactly. -/
theorem execute_sql_unknown_column_example :
    execute_sql "SELECT * FROM \"/root/Company\"" "Reference" "MIMA"
      resp400UnknownColumn = Except.ok "EBX SQL Error: unknown column" := by
  rfl

/-- Claim C7: `find_similar_records` always issues a POST to the
`/agent/v1/vector-similarity` suffix whose JSON body holds exactly the keys
`dataspace`, `dataset`, `tablePath`, `recordPk` and `k`; `k` defaults to 5
when not supplied and is forwarded unchanged with no local bound-checking
(the statement quantifies over every `k : Int`, non-positive included). -/
theorem find_similar_records_request_shape (ds dt tp pk : String) (k : Int) :
    (find_similar_records_request ds dt tp pk k).method = Method.post ∧
    (find_similar_records_request ds dt tp pk k).url
      = BASE_URL ++ "/agent/v1/vector-similarity" ∧
    (find_similar_records_request ds dt tp pk k).body
      = some (Json.obj
          [("dataspace", Json.str ds), ("dataset", Json.str dt),
           ("tablePath", Json.str tp), ("recordPk", Json.str pk),
           ("k", Json.num k)]) ∧
    (find_similar_records_request ds dt tp pk).body
      = some (Json.obj
          [("dataspace", Json.str ds), ("dataset", Json.str dt),
           ("tablePath", Json.str tp), ("recordPk", Json.str pk),
           ("k", Json.num 5)]) :=
  ⟨rfl, rfl, rfl, rfl⟩

/-- Claim C8: every outbound request issued by any of the four operations
carries the same fixed basic-auth pair, and its URL is the fixed base URL
followed by the operation's suffix. -/
theorem all_requests_same_auth_and_base (q sql ds dt tp pk path : String) (k : Int) :
    ((search_schema_request q).auth = AUTH ∧
      (search_schema_request q).url = BASE_URL ++ "/agent/v1/search") ∧
    ((execute_sql_request sql ds dt).auth = AUTH ∧
      (execute_sql_request sql ds dt).url = BASE_URL ++ "/agent/v1/sql") ∧
    ((find_similar_records_request ds dt tp pk k).auth = AUTH ∧
      (find_similar_records_request ds dt tp pk k).url
        = BASE_URL ++ "/agent/v1/vector-similarity") ∧
    ((get_table_definition_request ds dt path).auth = AUTH ∧
      (get_table_definition_request ds dt path).url
        = BASE_URL ++ "/agent/v1/fields") :=
  ⟨⟨rfl, rfl⟩, ⟨rfl, rfl⟩, ⟨rfl, rfl⟩, ⟨rfl, rfl⟩⟩

/-- Claim C9: invocations are independent and carry no state across calls:
whatever history of calls precedes it, a call produces the same value — the
value is a function of the call's own arguments and backend response alone. -/
theorem calls_carry_no_state (hist1 hist2 : List ToolCall) (c : ToolCall) :
    (runTrace initState (hist1 ++ [c])).getLast?
      = (runTrace initState (hist2 ++ [c])).getLast? := by
  simp [runTrace_eq_map]

theorem containsStr_append_left (a b : String) : containsStr (a ++ b) a :=
  ⟨"", b, by simp [String.empty_append]⟩

theorem containsStr_append_right (a b : String) : containsStr (a ++ b) b :=
  ⟨a, "", by simp [String.append_empty]⟩

/-- A concrete 300 response whose body is JSON with a `details` field. -/
def resp300details : Response :=
  ⟨300, "\x7b\"details\": \"boom\"\x7d", some (Json.obj [("details", Json.str "boom")])⟩

/-- Counterexample to C2 as stated: at the non-2xx status 300 with body
`{"details": "boom"}`, `execute_sql` returns the body verbatim; the
returned string does not contain the operation label `EBX SQL Error: `
(nor any other label, having no uppercase letter at all). -/
theorem details_rewrite_skipped_at_300 :
    execute_sql "SELECT 1" "Reference" "MIMA" resp300details
      = Except.ok "\x7b\"details\": \"boom\"\x7d" ∧
    ¬ containsStr "\x7b\"details\": \"boom\"\x7d" "EBX SQL Error: " := by
  refine ⟨rfl, fun h => ?_⟩
  have hm := containsStr_chars h 'E' (by decide)
  revert hm
  decide

/-- Claim C2 amended: for `execute_sql`, `get_table_definition` and
`find_similar_records`, every backend response with an error status
(4xx/5xx) whose body is a JSON object containing `{"details": "X"}` yields a
returned string — never a raised exception — that contains `X` and the
operation's label. -/
theorem error_status_details_rewrite (sql ds dt tp pk path X : String) (k : Int)
    (r : Response) (he : 400 ≤ r.status ∧ r.status ≤ 599)
    (fields : List (String × Json))
    (hj : r.json = some (Json.obj fields))
    (hd : dictGet fields "details" = some (Json.str X)) :
    (execute_sql sql ds dt r = Except.ok ("EBX SQL Error: " ++ X) ∧
      containsStr ("EBX SQL Error: " ++ X) "EBX SQL Error: " ∧
      containsStr ("EBX SQL Error: " ++ X) X) ∧
    (find_similar_records ds dt tp pk k r
        = Except.ok ("EBX Vector Similarity Error: " ++ X) ∧
      containsStr ("EBX Vector Similarity Error: " ++ X) "EBX Vector Similarity Error: " ∧
      containsStr ("EBX Vector Similarity Error: " ++ X) X) ∧
    (get_table_definition ds dt path r = Except.ok ("EBX SQL Error: " ++ X) ∧
      containsStr ("EBX SQL Error: " ++ X) "EBX SQL Error: " ∧
      containsStr ("EBX SQL Error: " ++ X) X) := by
  have herr : r.is_error = true := by
    simp only [Response.is_error, Bool.and_eq_true, decide_eq_true_eq]
    omega
  have hrw : ∀ label, rewriteError label r = label ++ X := by
    intro label
    simp [rewriteError, hj, hd, pyStr]
  refine ⟨⟨?_, ?_, ?_⟩, ⟨?_, ?_, ?_⟩, ⟨?_, ?_, ?_⟩⟩ <;>
    simp [execute_sql, find_similar_records, get_table_definition, herr, hrw,
      containsStr_append_left, containsStr_append_right]

/-- Witness for the amended C2 at a concrete 404 response with
`{"details": "boom"}`. -/
theorem error_status_details_rewrite_witness :
    (execute_sql "SELECT 1" "Reference" "MIMA" resp404
        = Except.ok "EBX SQL Error: boom" ∧
      containsStr "EBX SQL Error: boom" "EBX SQL Error: " ∧
      containsStr "EBX SQL Error: boom" "boom") ∧
    (find_similar_records "Reference" "MIMA" "/root/Company" "1" 5 resp404
        = Except.ok "EBX Vector Similarity Error: boom" ∧
      containsStr "EBX Vector Similarity Error: boom" "EBX Vector Similarity Error: " ∧
      containsStr "EBX Vector Similarity Error: boom" "boom") ∧
    (get_table_definition "Reference" "MIMA" "/root/Company" resp404
        = Except.ok "EBX SQL Error: boom" ∧
      containsStr "EBX SQL Error: boom" "EBX SQL Error: " ∧
      containsStr "EBX SQL Error: boom" "boom") :=
  error_status_details_rewrite "SELECT 1" "Reference" "MIMA" "/root/Company" "1"
    "/root/Company" "boom" 5 resp404 (by decide)
    [("details", Json.str "boom")] rfl rfl

/-- A concrete 400 response whose body is the JSON object `{}`: valid JSON,
no `details` field. -/
def resp400EmptyObj : Response :=
  ⟨400, "\x7b\x7d", some (Json.obj [])⟩

/-- Counterexample to C3 as stated: at status 400 with body `{}` (valid
JSON, no `details` field), `execute_sql` returns
`EBX SQL Error: Unknown error` — the `.get` default — which embeds neither
the status code `400` nor the body text `{}`; the status+body fallback is
not used. -/
theorem no_details_yields_default_not_fallback :
    execute_sql "SELECT 1" "Reference" "MIMA" resp400EmptyObj
      = Except.ok "EBX SQL Error: Unknown error" ∧
    ¬ containsStr "EBX SQL Error: Unknown error" "400" ∧
    ¬ containsStr "EBX SQL Error: Unknown error" "\x7b\x7d" := by
  refine ⟨rfl, fun h => ?_, fun h => ?_⟩
  · have hm := containsStr_chars h '4' (by decide)
    revert hm
    decide
  · have hm := containsStr_chars h '\x7b' (by decide)
    revert hm
    decide

/-- Claim C3 amended: for `execute_sql`, `get_table_definition` and
`find_similar_records`, an error-status (4xx/5xx) backend response whose
body parses as a JSON object without a `details` field yields the
operation's label followed by the default text `Unknown error`; the
status+body fallback is reserved for bodies that fail to parse as JSON or
parse to a non-object. -/
theorem error_status_no_details_default (sql ds dt tp pk path : String) (k : Int)
    (r : Response) (he : 400 ≤ r.status ∧ r.status ≤ 599)
    (fields : List (String × Json))
    (hj : r.json = some (Json.obj fields))
    (hd : dictGet fields "details" = none) :
    execute_sql sql ds dt r = Except.ok "EBX SQL Error: Unknown error" ∧
    find_similar_records ds dt tp pk k r
      = Except.ok "EBX Vector Similarity Error: Unknown error" ∧
    get_table_definition ds dt path r
      = Except.ok "EBX SQL Error: Unknown error" := by
  have herr : r.is_error = true := by
    simp only [Response.is_error, Bool.and_eq_true, decide_eq_true_eq]
    omega
  have hrw : ∀ label, rewriteError label r = label ++ "Unknown error" := by
    intro label
    simp [rewriteError, hj, hd, pyStr]
  refine ⟨?_, ?_, ?_⟩ <;>
    simp [execute_sql, find_similar_records, get_table_definition, herr, hrw]

/-- Witness for the amended C3 at the concrete 400 response with body `{}`. -/
theorem error_status_no_details_default_witness :
    execute_sql "SELECT 1" "Reference" "MIMA" resp400EmptyObj
      = Except.ok "EBX SQL Error: Unknown error" ∧
    find_similar_records "Reference" "MIMA" "/root/Company" "1" 5 resp400EmptyObj
      = Except.ok "EBX Vector Similarity Error: Unknown error" ∧
    get_table_definition "Reference" "MIMA" "/root/Company" resp400EmptyObj
      = Except.ok "EBX SQL Error: Unknown error" :=
  error_status_no_details_default "SELECT 1" "Reference" "MIMA" "/root/Company" "1"
    "/root/Company" 5 resp400EmptyObj (by decide) [] rfl rfl

/-- A concrete 300 response whose body `hello` is not valid JSON. -/
def resp300NonJson : Response :=
  ⟨300, "hello", none⟩

/-- A concrete 400 response whose body `oops` is not valid JSON. -/
def resp400NonJson : Response :=
  ⟨400, "oops", none⟩

/-- Counterexample to C5 as stated: at the non-2xx status 300 with the
non-JSON body `hello`, `execute_sql` returns the body verbatim, a string
that does not contain the status code `300`. -/
theorem nonjson_fallback_skipped_at_300 :
    execute_sql "SELECT 1" "Reference" "MIMA" resp300NonJson
      = Except.ok "hello" ∧
    ¬ containsStr "hello" "300" := by
  refine ⟨rfl, fun h => ?_⟩
  have hm := containsStr_chars h '3' (by decide)
  revert hm
  decide

/-- Claim C5 amended: for `execute_sql`, `get_table_definition` and
`find_similar_records`, every error-status (4xx/5xx) backend response whose
body is not valid JSON yields a returned string — the parse exception never
propagates — containing the literal HTTP status code and the raw body text. -/
theorem error_status_nonjson_fallback (sql ds dt tp pk path : String) (k : Int)
    (r : Response) (he : 400 ≤ r.status ∧ r.status ≤ 599)
    (hj : r.json = none) :
    (execute_sql sql ds dt r
        = Except.ok ("HTTP Error " ++ toString r.status ++ ": " ++ r.text) ∧
      containsStr ("HTTP Error " ++ toString r.status ++ ": " ++ r.text)
        (toString r.status) ∧
      containsStr ("HTTP Error " ++ toString r.status ++ ": " ++ r.text) r.text) ∧
    find_similar_records ds dt tp pk k r
      = Except.ok ("HTTP Error " ++ toString r.status ++ ": " ++ r.text) ∧
    get_table_definition ds dt path r
      = Except.ok ("HTTP Error " ++ toString r.status ++ ": " ++ r.text) := by
  have herr : r.is_error = true := by
    simp only [Response.is_error, Bool.and_eq_true, decide_eq_true_eq]
    omega
  have hrw : ∀ label, rewriteError label r
      = "HTTP Error " ++ toString r.status ++ ": " ++ r.text := by
    intro label
    simp [rewriteError, hj]
  refine ⟨⟨?_, ?_, ?_⟩, ?_, ?_⟩
  · simp [execute_sql, herr, hrw]
  · exact ⟨"HTTP Error ", ": " ++ r.text, by simp [String.append_assoc]⟩
  · exact containsStr_append_right ("HTTP Error " ++ toString r.status ++ ": ") r.text
  · simp [find_similar_records, herr, hrw]
  · simp [get_table_definition, herr, hrw]

/-- Witness for the amended C5 at the concrete 400 response with the
non-JSON body `oops`. -/
theorem error_status_nonjson_fallback_witness :
    (execute_sql "SELECT 1" "Reference" "MIMA" resp400NonJson
        = Except.ok "HTTP Error 400: oops" ∧
      containsStr "HTTP Error 400: oops" "400" ∧
      containsStr "HTTP Error 400: oops" "oops") ∧
    find_similar_records "Reference" "MIMA" "/root/Company" "1" 5 resp400NonJson
      = Except.ok "HTTP Error 400: oops" ∧
    get_table_definition "Reference" "MIMA" "/root/Company" resp400NonJson
      = Except.ok "HTTP Error 400: oops" :=
  error_status_nonjson_fallback "SELECT 1" "Reference" "MIMA" "/root/Company" "1"
    "/root/Company" 5 resp400NonJson (by decide) rfl
